import Mathlib

/-!
Shallow embedding of the demand-pattern classification engine
(`demand_classification.py`) of the Intelligent Spare-parts Management
repository, together with proofs about the spec's claims.

Modelling conventions:
* Python/numpy floating point numbers are modelled as real numbers `ℝ`;
  the `np.nan` sentinel is modelled by `Option ℝ` with `none` playing nan
  (`pd.isna x` is `x = none`).
* A pandas column of numbers becomes a `List ℝ`; `ndarray.std()` is the
  population standard deviation (numpy default `ddof = 0`), since the code
  calls `.std()` on `group['quantity_sold'].values`, a numpy array.
* Dataframe rows are structures; the dataframe itself is a `List` of rows.
-/

namespace DemandClassification

/-- `CV_THRESHOLD = 0.5` from the configuration section of the module. -/
noncomputable def CV_THRESHOLD : ℝ := 1 / 2

/-- `ADI_THRESHOLD = 1.32` from the configuration section of the module. -/
noncomputable def ADI_THRESHOLD : ℝ := 33 / 25

/-- `demand_series.mean()`: arithmetic mean of the series (callers guard
against the empty series before using it). -/
noncomputable def seriesMean (s : List ℝ) : ℝ := s.sum / s.length

/-- `demand_series.std()` on a numpy array: population standard deviation
(`ddof = 0`), the square root of the mean squared deviation from the mean. -/
noncomputable def seriesStd (s : List ℝ) : ℝ :=
  Real.sqrt ((s.map (fun x => (x - seriesMean s) ^ 2)).sum / s.length)

/-- `calculate_cv(demand_series)`: coefficient of variation, std / mean.
Returns `none` (the nan sentinel) for an empty series, a series with zero
sum, or zero mean; the final guard `if mean_demand > 0 else np.nan` of the
source is kept as the last branch. -/
noncomputable def calculate_cv (demand_series : List ℝ) : Option ℝ :=
  if demand_series.length = 0 ∨ demand_series.sum = 0 then none
  else if seriesMean demand_series = 0 then none
  else if 0 < seriesMean demand_series then
    some (seriesStd demand_series / seriesMean demand_series)
  else none

/-- `(demand_series > 0).sum()`: the number of entries strictly greater
than zero. -/
noncomputable def countPositive : List ℝ → ℕ
  | [] => 0
  | x :: xs => (if 0 < x then 1 else 0) + countPositive xs

set_option linter.unusedVariables false in
/-- `calculate_adi(demand_series, date_series)`: number of periods divided
by number of periods with strictly positive demand.  The `date_series`
argument is accepted but never used, exactly as in the source. -/
noncomputable def calculate_adi {β : Type} (demand_series : List ℝ)
    (date_series : List β) : Option ℝ :=
  if demand_series.length = 0 then none
  else if countPositive demand_series = 0 then none
  else if 0 < countPositive demand_series then
    some ((demand_series.length : ℝ) / (countPositive demand_series : ℝ))
  else none

/-- `classify_demand_pattern(cv, adi)`: the quadrant classifier.  The
`pd.isna` guard is the two `none` branches; then the `if`/`elif` chain of
the source in order: Smooth, Erratic, Intermittent, else Lumpy. -/
noncomputable def classify_demand_pattern (cv adi : Option ℝ) : String :=
  match cv, adi with
  | none, _ => "Unknown"
  | _, none => "Unknown"
  | some c, some a =>
    if c < CV_THRESHOLD ∧ a < ADI_THRESHOLD then "Smooth"
    else if c ≥ CV_THRESHOLD ∧ a < ADI_THRESHOLD then "Erratic"
    else if c < CV_THRESHOLD ∧ a ≥ ADI_THRESHOLD then "Intermittent"
    else "Lumpy"

/-! ### Dataframe rows and the location reconciler -/

/-- A row of the input dataset before location reconstruction: part
identifier, date, quantity sold, and the remaining feature columns
(including the one-hot location indicator columns) accessed by column
name.  Indicator values are exact numbers, modelled as rationals. -/
structure RawRow where
  part_sku : String
  date : ℤ
  quantity_sold : ℝ
  extra : String → ℚ

/-- A row after the `location_id` column has been added (or when it was
present from the start). -/
structure LRow extends RawRow where
  location_id : String

/-- One left-to-right pass removing every (non-overlapping) occurrence of
`pat`, with enough fuel to consume the whole list; helper for
`pyReplaceEmpty`. -/
def removeAllGo (pat : List Char) : ℕ → List Char → List Char
  | _, [] => []
  | 0, l => l
  | n + 1, c :: cs =>
    if pat ≠ [] ∧ pat.isPrefixOf (c :: cs) then removeAllGo pat n ((c :: cs).drop pat.length)
    else c :: removeAllGo pat n cs

/-- Python's `s.replace(pat, '')`: delete every occurrence of `pat` in `s`,
scanning left to right. -/
def pyReplaceEmpty (s pat : String) : String := ⟨removeAllGo pat.data s.data.length s.data⟩

/-- The per-row body of the location reconstruction loop
(`for loc_col in location_cols: if row[loc_col] == 1: ... break`): the
first indicator column holding 1 names the location
(`loc_col.replace('location_id_', '')`); if none is set the default
`'LOC_001'` is used (both `else` branches of the source assign
`'LOC_001'`). -/
def reconstruct_location (location_cols : List String) (r : RawRow) : String :=
  match location_cols.find? (fun c => r.extra c == 1) with
  | some c => pyReplaceEmpty c "location_id_"
  | none => "LOC_001"

/-- `df['location_id'] = location_values`: the reconciler pass over the
whole dataset, adding the `location_id` column and leaving every other
column of every row untouched. -/
def add_location_id (location_cols : List String) (rows : List RawRow) : List LRow :=
  rows.map (fun r => ⟨r, reconstruct_location location_cols r⟩)

/-! ### The series aggregator (`classify_demand_patterns`) -/

/-- The groupby key of a row: the `(part_sku, location_id)` pair. -/
def rowKey (r : LRow) : String × String := (r.part_sku, r.location_id)

/-- The comparison behind
`df.sort_values(['part_sku', 'location_id', 'date'])`: lexicographic on
part identifier, then location identifier, then date. -/
def rowLe (a b : LRow) : Bool :=
  if a.part_sku = b.part_sku then
    if a.location_id = b.location_id then decide (a.date ≤ b.date)
    else decide (a.location_id < b.location_id)
  else decide (a.part_sku < b.part_sku)

/-- A row of the group-level classification table: one entry of
`classification_results` in the source. -/
structure CRow where
  part_sku : String
  location_id : String
  cv : Option ℝ
  adi : Option ℝ
  demand_pattern : String
  total_demand : ℝ
  mean_demand : ℝ
  std_demand : ℝ
  periods_with_demand : ℕ
  total_periods : ℕ
  zero_demand_ratio : ℝ

/-- The body of the groupby loop for one `(sku, location)` group: extract
the demand and date series, compute CV/ADI, classify, and record the
additional statistics, exactly the dictionary appended to
`classification_results`. -/
noncomputable def mkCRow (k : String × String) (group : List LRow) : CRow :=
  let demand_series := group.map (fun r => r.quantity_sold)
  let date_series := group.map (fun r => r.date)
  let cv := calculate_cv demand_series
  let adi := calculate_adi demand_series date_series
  ⟨k.1, k.2, cv, adi, classify_demand_pattern cv adi,
    demand_series.sum, seriesMean demand_series, seriesStd demand_series,
    countPositive demand_series, demand_series.length,
    if 0 < demand_series.length then
      1 - (countPositive demand_series : ℝ) / (demand_series.length : ℝ)
    else 0⟩

/-- A row of the record-level output `df_classified`: the original row with
the `demand_pattern`, `cv` and `adi` fields of its group merged in. -/
structure ARow where
  row : LRow
  demand_pattern : String
  cv : Option ℝ
  adi : Option ℝ

/-- `classify_demand_patterns(df)` for a dataset that carries a
`location_id` column (when the column is missing it is first added by
`add_location_id`, modelled separately): sort by (sku, location, date),
group by the key in ascending key order with rows in sorted order, build
the classification table, and left-merge `demand_pattern`/`cv`/`adi` back
onto every row by `(part_sku, location_id)`.  A left-merge row with no
match in the classification table would carry missing values (pattern
"NaN"), as `how='left'` does in pandas. -/
noncomputable def classify_demand_patterns (rows : List LRow) :
    List ARow × List CRow :=
  let sorted := rows.mergeSort rowLe
  let keys := (sorted.map rowKey).dedup
  let classification_df :=
    keys.map (fun k => mkCRow k (sorted.filter (fun r => rowKey r == k)))
  let df_classified := sorted.flatMap (fun r =>
    let ms := classification_df.filter
      (fun c => c.part_sku == r.part_sku && c.location_id == r.location_id)
    if ms.isEmpty then [⟨r, "NaN", none, none⟩]
    else ms.map (fun c => ⟨r, c.demand_pattern, c.cv, c.adi⟩))
  (df_classified, classification_df)

/-! ### The report generator (`generate_classification_report`) -/

/-- The fixed category ordering of both report loops:
`['Smooth', 'Erratic', 'Intermittent', 'Lumpy', 'Unknown']`. -/
def PATTERN_ORDER : List String :=
  ["Smooth", "Erratic", "Intermittent", "Lumpy", "Unknown"]

/-- `value_counts().get(pattern, 0)`: occurrences of pattern `p` in a
pattern column; 0 for an absent pattern. -/
def patternCount (pats : List String) (p : String) : ℕ :=
  pats.countP (fun q => q == p)

/-- `value_counts(normalize=True).get(pattern, 0) * 100`: the percentage of
entries with pattern `p`; on an empty column `value_counts` is empty and
the `.get` default 0 applies. -/
def patternPct (pats : List String) (p : String) : ℚ :=
  if pats.length = 0 then 0
  else (patternCount pats p : ℚ) * 100 / (pats.length : ℚ)

/-- The two distribution tables of the report: for each pattern of the
fixed ordering, the `(pattern, count, percentage)` line, at group level
(over `classification_df`) and at record level (over `df_classified`). -/
structure ReportDistributions where
  group_lines : List (String × ℕ × ℚ)
  record_lines : List (String × ℕ × ℚ)

/-- The distribution content of `generate_classification_report`: the
group-level loop over the five fixed categories and the record-level loop
over the same five categories, each line carrying the `.get(pattern, 0)`
count and the normalized percentage (the headers, timestamps and
per-pattern statistics sections carry no claim and are not modelled). -/
def generate_classification_report (classification_df : List CRow)
    (df_classified : List ARow) : ReportDistributions :=
  ⟨PATTERN_ORDER.map (fun p =>
      (p, patternCount (classification_df.map (fun c => c.demand_pattern)) p,
        patternPct (classification_df.map (fun c => c.demand_pattern)) p)),
    PATTERN_ORDER.map (fun p =>
      (p, patternCount (df_classified.map (fun a => a.demand_pattern)) p,
        patternPct (df_classified.map (fun a => a.demand_pattern)) p))⟩

/-! ### Helper lemmas for evaluating the calculators and the classifier -/

lemma classify_smooth {c a : ℝ} (hc : c < CV_THRESHOLD) (ha : a < ADI_THRESHOLD) :
    classify_demand_pattern (some c) (some a) = "Smooth" := by
  simp only [classify_demand_pattern]
  rw [if_pos ⟨hc, ha⟩]

lemma classify_erratic {c a : ℝ} (hc : CV_THRESHOLD ≤ c) (ha : a < ADI_THRESHOLD) :
    classify_demand_pattern (some c) (some a) = "Erratic" := by
  simp only [classify_demand_pattern]
  rw [if_neg (by simp [not_and]; intro h; exact absurd h (not_lt.mpr hc)),
    if_pos ⟨hc, ha⟩]

lemma classify_intermittent {c a : ℝ} (hc : c < CV_THRESHOLD) (ha : ADI_THRESHOLD ≤ a) :
    classify_demand_pattern (some c) (some a) = "Intermittent" := by
  simp only [classify_demand_pattern]
  rw [if_neg (by rintro ⟨-, h⟩; exact absurd h (not_lt.mpr ha)),
    if_neg (by rintro ⟨h, -⟩; exact absurd hc (not_lt.mpr h)),
    if_pos ⟨hc, ha⟩]

lemma classify_lumpy {c a : ℝ} (hc : CV_THRESHOLD ≤ c) (ha : ADI_THRESHOLD ≤ a) :
    classify_demand_pattern (some c) (some a) = "Lumpy" := by
  simp only [classify_demand_pattern]
  rw [if_neg (by rintro ⟨h, -⟩; exact absurd h (not_lt.mpr hc)),
    if_neg (by rintro ⟨-, h⟩; exact absurd h (not_lt.mpr ha)),
    if_neg (by rintro ⟨h, -⟩; exact absurd h (not_lt.mpr hc))]

/-- Evaluation rule for `calculate_cv` on a series with positive mean whose
variance is the square `σ ^ 2`. -/
lemma calculate_cv_eq (s : List ℝ) (m σ : ℝ)
    (hm : seriesMean s = m)
    (hv : (s.map (fun x => (x - m) ^ 2)).sum / s.length = σ ^ 2)
    (hσ : 0 ≤ σ) (hmpos : 0 < m) (hsum : s.sum ≠ 0) :
    calculate_cv s = some (σ / m) := by
  have hlen : s.length ≠ 0 := by
    rintro h
    rw [List.length_eq_zero] at h
    subst h
    simp [seriesMean] at hm
    exact hmpos.ne' hm.symm
  have hstd : seriesStd s = σ := by
    rw [seriesStd, hm, hv, Real.sqrt_sq hσ]
  rw [calculate_cv, if_neg (by push_neg; exact ⟨hlen, hsum⟩), hm,
    if_neg hmpos.ne', if_pos hmpos, hstd]

/-- Evaluation rule for `calculate_adi` on a series with `k > 0` positive
entries. -/
lemma calculate_adi_eq {β : Type} (s : List ℝ) (d : List β) (k : ℕ)
    (hk : countPositive s = k) (hkpos : 0 < k) :
    calculate_adi s d = some ((s.length : ℝ) / (k : ℝ)) := by
  have hlen : s.length ≠ 0 := by
    rintro h
    rw [List.length_eq_zero] at h
    subst h
    simp [countPositive] at hk
    exact hkpos.ne hk
  rw [calculate_adi, if_neg hlen, hk, if_neg hkpos.ne', if_pos hkpos]

lemma countPositive_eq_zero {s : List ℝ} (h : ∀ x ∈ s, ¬ 0 < x) :
    countPositive s = 0 := by
  induction s with
  | nil => rfl
  | cons x xs ih =>
    rw [countPositive, if_neg (h x (List.mem_cons_self x xs)),
      ih (fun y hy => h y (List.mem_cons_of_mem x hy))]

lemma countPositive_pos {s : List ℝ} {x : ℝ} (hx : x ∈ s) (hpos : 0 < x) :
    0 < countPositive s := by
  induction s with
  | nil => exact absurd hx (List.not_mem_nil x)
  | cons y ys ih =>
    rw [countPositive]
    rcases List.mem_cons.mp hx with h | h
    · subst h
      rw [if_pos hpos]
      exact Nat.lt_of_lt_of_le Nat.zero_lt_one (Nat.le_add_right 1 _)
    · exact Nat.lt_of_lt_of_le (ih h) (Nat.le_add_left _ _)

/-! ### Evaluation of the pipeline on the spec's example series -/

lemma pipeline_s1 :
    classify_demand_pattern
      (calculate_cv [5, 0, 5, 0, 5, 0, 5, 0, 5, 0])
      (calculate_adi [5, 0, 5, 0, 5, 0, 5, 0, 5, 0] ([] : List ℤ)) = "Lumpy" := by
  have hm : seriesMean [5, 0, 5, 0, 5, 0, 5, 0, 5, 0] = 5 / 2 := by
    norm_num [seriesMean, List.sum_cons]
  have hcv : calculate_cv [5, 0, 5, 0, 5, 0, 5, 0, 5, 0] = some 1 := by
    rw [calculate_cv_eq _ (5 / 2) (5 / 2) hm (by norm_num [List.sum_cons])
      (by norm_num) (by norm_num) (by norm_num [List.sum_cons])]
    norm_num
  have hadi : calculate_adi [5, 0, 5, 0, 5, 0, 5, 0, 5, 0] ([] : List ℤ) = some 2 := by
    rw [calculate_adi_eq _ _ 5 (by norm_num [countPositive]) (by norm_num)]
    norm_num
  rw [hcv, hadi]
  exact classify_lumpy (by norm_num [CV_THRESHOLD]) (by norm_num [ADI_THRESHOLD])

lemma pipeline_s2 :
    classify_demand_pattern
      (calculate_cv [1, 1, 1, 1, 1, 1, 1, 1, 1, 1])
      (calculate_adi [1, 1, 1, 1, 1, 1, 1, 1, 1, 1] ([] : List ℤ)) = "Smooth" := by
  have hm : seriesMean [1, 1, 1, 1, 1, 1, 1, 1, 1, 1] = 1 := by
    norm_num [seriesMean, List.sum_cons]
  have hcv : calculate_cv [1, 1, 1, 1, 1, 1, 1, 1, 1, 1] = some 0 := by
    rw [calculate_cv_eq _ 1 0 hm (by norm_num [List.sum_cons])
      (by norm_num) (by norm_num) (by norm_num [List.sum_cons])]
    norm_num
  have hadi : calculate_adi [1, 1, 1, 1, 1, 1, 1, 1, 1, 1] ([] : List ℤ) = some 1 := by
    rw [calculate_adi_eq _ _ 10 (by norm_num [countPositive]) (by norm_num)]
    norm_num
  rw [hcv, hadi]
  exact classify_smooth (by norm_num [CV_THRESHOLD]) (by norm_num [ADI_THRESHOLD])

lemma pipeline_s3 :
    classify_demand_pattern
      (calculate_cv [0, 0, 0, 10, 0, 0, 0, 0, 0, 0])
      (calculate_adi [0, 0, 0, 10, 0, 0, 0, 0, 0, 0] ([] : List ℤ)) = "Lumpy" := by
  have hm : seriesMean [0, 0, 0, 10, 0, 0, 0, 0, 0, 0] = 1 := by
    norm_num [seriesMean, List.sum_cons]
  have hcv : calculate_cv [0, 0, 0, 10, 0, 0, 0, 0, 0, 0] = some 3 := by
    rw [calculate_cv_eq _ 1 3 hm (by norm_num [List.sum_cons])
      (by norm_num) (by norm_num) (by norm_num [List.sum_cons])]
    norm_num
  have hadi : calculate_adi [0, 0, 0, 10, 0, 0, 0, 0, 0, 0] ([] : List ℤ) = some 10 := by
    rw [calculate_adi_eq _ _ 1 (by norm_num [countPositive]) (by norm_num)]
    norm_num
  rw [hcv, hadi]
  exact classify_lumpy (by norm_num [CV_THRESHOLD]) (by norm_num [ADI_THRESHOLD])

/-! ### Claim theorems for the statistic calculators and the classifier -/

/-- C1 (counterexample): on the series `[5,0,5,0,5,0,5,0,5,0]` the pipeline
of `calculate_cv`, `calculate_adi` and `classify_demand_pattern` yields
"Lumpy", not "Intermittent" as the claim states: the coefficient of
variation of that series is 1 (mean 2.5, population std 2.5), not ≈ 0. -/
theorem C1_counterexample :
    classify_demand_pattern
      (calculate_cv [5, 0, 5, 0, 5, 0, 5, 0, 5, 0])
      (calculate_adi [5, 0, 5, 0, 5, 0, 5, 0, 5, 0] ([] : List ℤ)) = "Lumpy" ∧
    classify_demand_pattern
      (calculate_cv [5, 0, 5, 0, 5, 0, 5, 0, 5, 0])
      (calculate_adi [5, 0, 5, 0, 5, 0, 5, 0, 5, 0] ([] : List ℤ)) ≠ "Intermittent" := by
  refine ⟨pipeline_s1, ?_⟩
  rw [pipeline_s1]
  decide

/-- C1 (amended): the pipeline maps `[5,0,5,0,5,0,5,0,5,0]` to "Lumpy"
(CV = 1 ≥ 0.5, ADI = 2 ≥ 1.32), `[1,1,1,1,1,1,1,1,1,1]` to "Smooth" and
`[0,0,0,10,0,0,0,0,0,0]` to "Lumpy". -/
theorem C1_pipeline_examples :
    classify_demand_pattern
      (calculate_cv [5, 0, 5, 0, 5, 0, 5, 0, 5, 0])
      (calculate_adi [5, 0, 5, 0, 5, 0, 5, 0, 5, 0] ([] : List ℤ)) = "Lumpy" ∧
    classify_demand_pattern
      (calculate_cv [1, 1, 1, 1, 1, 1, 1, 1, 1, 1])
      (calculate_adi [1, 1, 1, 1, 1, 1, 1, 1, 1, 1] ([] : List ℤ)) = "Smooth" ∧
    classify_demand_pattern
      (calculate_cv [0, 0, 0, 10, 0, 0, 0, 0, 0, 0])
      (calculate_adi [0, 0, 0, 10, 0, 0, 0, 0, 0, 0] ([] : List ℤ)) = "Lumpy" :=
  ⟨pipeline_s1, pipeline_s2, pipeline_s3⟩

/-- C2: `classify_demand_pattern` is total in its two arguments, returns
"Unknown" when either input is the nan sentinel, "Smooth" when cv < 0.5 and
adi < 1.32, "Erratic" when cv ≥ 0.5 and adi < 1.32, "Intermittent" when
cv < 0.5 and adi ≥ 1.32, "Lumpy" when cv ≥ 0.5 and adi ≥ 1.32; in
particular `classify_demand_pattern 0.5 1.0 = "Erratic"` and
`classify_demand_pattern 0.49 1.32 = "Intermittent"`. -/
theorem C2_classify_quadrants :
    (∀ a : Option ℝ, classify_demand_pattern none a = "Unknown") ∧
    (∀ c : Option ℝ, classify_demand_pattern c none = "Unknown") ∧
    (∀ c a : ℝ, c < 1 / 2 → a < 33 / 25 →
      classify_demand_pattern (some c) (some a) = "Smooth") ∧
    (∀ c a : ℝ, 1 / 2 ≤ c → a < 33 / 25 →
      classify_demand_pattern (some c) (some a) = "Erratic") ∧
    (∀ c a : ℝ, c < 1 / 2 → 33 / 25 ≤ a →
      classify_demand_pattern (some c) (some a) = "Intermittent") ∧
    (∀ c a : ℝ, 1 / 2 ≤ c → 33 / 25 ≤ a →
      classify_demand_pattern (some c) (some a) = "Lumpy") ∧
    classify_demand_pattern (some (1 / 2)) (some 1) = "Erratic" ∧
    classify_demand_pattern (some (49 / 100)) (some (33 / 25)) = "Intermittent" := by
  refine ⟨fun a => by cases a <;> rfl, fun c => by cases c <;> rfl,
    fun c a hc ha => classify_smooth (by rw [CV_THRESHOLD]; exact hc)
      (by rw [ADI_THRESHOLD]; exact ha),
    fun c a hc ha => classify_erratic (by rw [CV_THRESHOLD]; exact hc)
      (by rw [ADI_THRESHOLD]; exact ha),
    fun c a hc ha => classify_intermittent (by rw [CV_THRESHOLD]; exact hc)
      (by rw [ADI_THRESHOLD]; exact ha),
    fun c a hc ha => classify_lumpy (by rw [CV_THRESHOLD]; exact hc)
      (by rw [ADI_THRESHOLD]; exact ha),
    classify_erratic (by rw [CV_THRESHOLD]) (by rw [ADI_THRESHOLD]; norm_num),
    classify_intermittent (by rw [CV_THRESHOLD]; norm_num) (by rw [ADI_THRESHOLD])⟩

/-- C2 (witness): the quadrant clauses of `C2_classify_quadrants` applied at
a concrete input. -/
theorem C2_classify_quadrants_witness :
    classify_demand_pattern (some (0 : ℝ)) (some (0 : ℝ)) = "Smooth" :=
  C2_classify_quadrants.2.2.1 0 0 (by norm_num) (by norm_num)

/-- C3: on an empty or all-zero series, `calculate_cv` and `calculate_adi`
both return the nan sentinel and the classification is "Unknown". -/
theorem C3_degenerate_series (s : List ℝ) (d : List ℤ)
    (h : s = [] ∨ ∀ x ∈ s, x = 0) :
    calculate_cv s = none ∧ calculate_adi s d = none ∧
    classify_demand_pattern (calculate_cv s) (calculate_adi s d) = "Unknown" := by
  have hcv : calculate_cv s = none := by
    rcases h with h | h
    · rw [calculate_cv, if_pos (Or.inl (by rw [h]; rfl))]
    · rw [calculate_cv, if_pos (Or.inr (List.sum_eq_zero h))]
  have hadi : calculate_adi s d = none := by
    rcases h with h | h
    · rw [calculate_adi, if_pos (by rw [h]; rfl)]
    · by_cases hs : s.length = 0
      · rw [calculate_adi, if_pos hs]
      · rw [calculate_adi, if_neg hs,
          if_pos (countPositive_eq_zero (fun x hx => by rw [h x hx]; exact lt_irrefl 0))]
  exact ⟨hcv, hadi, by rw [hcv, hadi]; rfl⟩

/-- C3 (witness): `C3_degenerate_series` at the all-zero series `[0]`. -/
theorem C3_degenerate_series_witness :
    calculate_cv [(0 : ℝ)] = none ∧ calculate_adi [(0 : ℝ)] ([] : List ℤ) = none ∧
    classify_demand_pattern (calculate_cv [(0 : ℝ)])
      (calculate_adi [(0 : ℝ)] ([] : List ℤ)) = "Unknown" :=
  C3_degenerate_series [(0 : ℝ)] [] (Or.inr (by simp))

/-- C7: for a non-empty series with at least one strictly positive entry,
`calculate_adi` returns the total period count divided by the count of
strictly positive periods, and the `date_series` argument never affects the
result. -/
theorem C7_adi_formula {β γ : Type} (s : List ℝ) (d : List β)
    (h : ∃ x ∈ s, 0 < x) :
    calculate_adi s d = some ((s.length : ℝ) / (countPositive s : ℝ)) ∧
    ∀ d' : List γ, calculate_adi s d = calculate_adi s d' := by
  obtain ⟨x, hx, hpos⟩ := h
  refine ⟨calculate_adi_eq s d (countPositive s) rfl (countPositive_pos hx hpos), ?_⟩
  intro d'
  rw [calculate_adi, calculate_adi]

/-- C7 (witness): `C7_adi_formula` at the series `[1]`. -/
theorem C7_adi_formula_witness :
    calculate_adi [(1 : ℝ)] ([] : List ℤ) =
      some (((1 : ℕ) : ℝ) / ((countPositive [(1 : ℝ)] : ℕ) : ℝ)) ∧
    ∀ d' : List ℕ, calculate_adi [(1 : ℝ)] ([] : List ℤ) = calculate_adi [(1 : ℝ)] d' :=
  C7_adi_formula [(1 : ℝ)] [] ⟨1, List.mem_singleton.mpr rfl, by norm_num⟩

/-- C10: a one-element series with a strictly positive quantity has
`calculate_cv = 0` (population std of one value is 0) and
`calculate_adi = 1`, so the pipeline classifies it "Smooth", never
"Unknown". -/
theorem C10_singleton_smooth (x : ℝ) (hx : 0 < x) (d : List ℤ) :
    calculate_cv [x] = some 0 ∧ calculate_adi [x] d = some 1 ∧
    classify_demand_pattern (calculate_cv [x]) (calculate_adi [x] d) = "Smooth" := by
  have hcv : calculate_cv [x] = some 0 := by
    rw [calculate_cv_eq [x] x 0 (by simp [seriesMean]) (by simp) le_rfl hx
      (by simpa using hx.ne')]
    rw [zero_div]
  have hadi : calculate_adi [x] d = some 1 := by
    rw [calculate_adi_eq [x] d 1 (by rw [countPositive, countPositive, if_pos hx]) one_pos]
    norm_num
  refine ⟨hcv, hadi, ?_⟩
  rw [hcv, hadi]
  exact classify_smooth (by rw [CV_THRESHOLD]; norm_num) (by rw [ADI_THRESHOLD]; norm_num)

/-- C10 (witness): `C10_singleton_smooth` at the series `[1]`. -/
theorem C10_singleton_smooth_witness :
    calculate_cv [(1 : ℝ)] = some 0 ∧ calculate_adi [(1 : ℝ)] ([] : List ℤ) = some 1 ∧
    classify_demand_pattern (calculate_cv [(1 : ℝ)])
      (calculate_adi [(1 : ℝ)] ([] : List ℤ)) = "Smooth" :=
  C10_singleton_smooth 1 one_pos []

/-! ### Structural lemmas about the aggregator -/

/-- In a duplicate-free list, filtering for one of its members keeps
exactly one element. -/
lemma length_filter_eq_one {α : Type} [DecidableEq α] (l : List α) (a : α)
    (h1 : l.Nodup) (h2 : a ∈ l) :
    (l.filter (fun k => decide (k = a))).length = 1 := by
  induction l with
  | nil => cases h2
  | cons x xs ih =>
    have hnd := List.nodup_cons.mp h1
    rcases List.mem_cons.mp h2 with rfl | hmem
    · have hx : xs.filter (fun k => decide (k = a)) = [] :=
        List.filter_eq_nil_iff.mpr (fun y hy => by
          simp only [decide_eq_true_eq]
          rintro rfl
          exact hnd.1 hy)
      simp [List.filter_cons, hx]
    · have hxa : x ≠ a := fun h => hnd.1 (h ▸ hmem)
      rw [List.filter_cons, if_neg (by simpa using hxa)]
      exact ih hnd.2 hmem

/-- The classification table, built over the deduplicated key list, has
exactly one row whose key fields match any key that occurs in the data. -/
lemma length_filter_classification (l : List (String × String))
    (g : String × String → List LRow) (r : LRow) (hr : rowKey r ∈ l) :
    ((l.dedup.map (fun k => mkCRow k (g k))).filter
      (fun c => c.part_sku == r.part_sku && c.location_id == r.location_id)).length
      = 1 := by
  rw [List.filter_map, List.length_map]
  have hcong : List.filter
      ((fun c : CRow => c.part_sku == r.part_sku && c.location_id == r.location_id) ∘
        (fun k => mkCRow k (g k))) l.dedup
      = List.filter (fun k => decide (k = rowKey r)) l.dedup := by
    apply List.filter_congr
    intro k _
    rcases k with ⟨k1, k2⟩
    show (k1 == r.part_sku && k2 == r.location_id) = decide ((k1, k2) = rowKey r)
    calc (k1 == r.part_sku && k2 == r.location_id)
        = (decide (k1 = r.part_sku) && decide (k2 = r.location_id)) := rfl
      _ = decide (k1 = r.part_sku ∧ k2 = r.location_id) := (Bool.decide_and _ _).symm
      _ = decide ((k1, k2) = rowKey r) :=
          decide_eq_decide.mpr
            (iff_of_eq (Prod.mk.injEq k1 k2 r.part_sku r.location_id).symm)
  rw [hcong]
  exact length_filter_eq_one _ _ (List.nodup_dedup l) (List.mem_dedup.mpr hr)

/-- The classifier only ever returns one of the five fixed category
labels. -/
lemma classify_demand_pattern_mem (cv adi : Option ℝ) :
    classify_demand_pattern cv adi ∈ PATTERN_ORDER := by
  rcases cv with _ | c
  · simp [classify_demand_pattern, PATTERN_ORDER]
  rcases adi with _ | a
  · simp [classify_demand_pattern, PATTERN_ORDER]
  · simp only [classify_demand_pattern, PATTERN_ORDER]
    split_ifs <;> simp

lemma sum_map_add' (cats : List String) (f g : String → ℕ) :
    (cats.map (fun c => f c + g c)).sum = (cats.map f).sum + (cats.map g).sum := by
  induction cats with
  | nil => rfl
  | cons x xs ih =>
    simp only [List.map_cons, List.sum_cons, ih]
    omega

/-- Summing the indicator of `x` over a duplicate-free list containing `x`
gives 1. -/
lemma sum_indicator (cats : List String) (x : String) (hnd : cats.Nodup)
    (hx : x ∈ cats) :
    (cats.map (fun c => if x == c then 1 else 0)).sum = 1 := by
  induction cats with
  | nil => cases hx
  | cons y ys ih =>
    have hnd' := List.nodup_cons.mp hnd
    simp only [List.map_cons, List.sum_cons]
    rcases List.mem_cons.mp hx with rfl | hmem
    · rw [if_pos (by simp), List.sum_eq_zero, Nat.add_zero]
      intro n hn
      rw [List.mem_map] at hn
      obtain ⟨c, hc, rfl⟩ := hn
      rw [if_neg]
      simp only [beq_iff_eq]
      rintro rfl
      exact hnd'.1 hc
    · have hxy : y ≠ x := fun hh => hnd'.1 (hh ▸ hmem)
      rw [if_neg (by simp only [beq_iff_eq]; exact fun hh => hxy hh.symm),
        Nat.zero_add]
      exact ih hnd'.2 hmem

/-- The five per-category counts of the report partition the column: their
sum is the column's length whenever every entry is one of the five
labels. -/
lemma sum_patternCount (pats : List String)
    (h : ∀ x ∈ pats, x ∈ PATTERN_ORDER) :
    (PATTERN_ORDER.map (fun p => patternCount pats p)).sum = pats.length := by
  induction pats with
  | nil => simp [patternCount]
  | cons x xs ih =>
    simp only [patternCount, List.countP_cons]
    rw [sum_map_add']
    have h1 : (PATTERN_ORDER.map (fun p => List.countP (fun q => q == p) xs)).sum
        = xs.length := ih (fun y hy => h y (List.mem_cons_of_mem x hy))
    have h2 : (PATTERN_ORDER.map
        (fun p => if (x == p) = true then 1 else 0)).sum = 1 := by
      have := sum_indicator PATTERN_ORDER x (by decide)
        (h x (List.mem_cons_self x xs))
      simpa using this
    simp only [patternCount] at h1
    rw [h1, h2, List.length_cons]

/-- The five report percentages sum to exactly 100 whenever the column is
non-empty and every entry is one of the five labels. -/
lemma sum_patternPct (pats : List String)
    (h : ∀ x ∈ pats, x ∈ PATTERN_ORDER) (hne : pats.length ≠ 0) :
    (PATTERN_ORDER.map (fun p => patternPct pats p)).sum = 100 := by
  have hcount := sum_patternCount pats h
  have hmap : PATTERN_ORDER.map (fun p => patternPct pats p)
      = PATTERN_ORDER.map
          (fun p => (patternCount pats p : ℚ) * (100 / (pats.length : ℚ))) := by
    apply List.map_congr_left
    intro p _
    rw [patternPct, if_neg hne, mul_div_assoc]
  rw [hmap, List.sum_map_mul_right]
  have hcast : (PATTERN_ORDER.map (fun p => ((patternCount pats p : ℕ) : ℚ))).sum
      = ((pats.length : ℕ) : ℚ) := by
    rw [show PATTERN_ORDER.map (fun p => ((patternCount pats p : ℕ) : ℚ))
          = (PATTERN_ORDER.map (fun p => patternCount pats p)).map
              (fun n : ℕ => (n : ℚ)) by rw [List.map_map]; rfl,
      ← Nat.cast_list_sum, hcount]
  rw [hcast]
  have : ((pats.length : ℕ) : ℚ) ≠ 0 := Nat.cast_ne_zero.mpr hne
  field_simp

/-! ### Claim theorems for the aggregator invariants -/

/-- No row of the sorted data lacks a match in the classification table:
its match list is never empty. -/
lemma ms_not_isEmpty (rows : List LRow) (r : LRow)
    (hr : r ∈ rows.mergeSort rowLe) :
    ¬ ((((rows.mergeSort rowLe).map rowKey).dedup.map
        (fun k => mkCRow k ((rows.mergeSort rowLe).filter (fun x => rowKey x == k)))).filter
        (fun c => c.part_sku == r.part_sku && c.location_id == r.location_id)).isEmpty
      = true := by
  have hms := length_filter_classification ((rows.mergeSort rowLe).map rowKey)
    (fun k => (rows.mergeSort rowLe).filter (fun x => rowKey x == k)) r
    (List.mem_map_of_mem rowKey hr)
  rw [List.isEmpty_iff]
  intro h
  rw [h] at hms
  simp at hms

/-- The record-level output of the aggregator keeps the input's row
count. -/
lemma df_classified_length (rows : List LRow) :
    (classify_demand_patterns rows).1.length = rows.length := by
  simp only [classify_demand_patterns]
  rw [List.length_flatMap]
  have h1 : ∀ r ∈ rows.mergeSort rowLe,
      (List.length ∘ fun r : LRow =>
        let ms := (((rows.mergeSort rowLe).map rowKey).dedup.map
          (fun k => mkCRow k ((rows.mergeSort rowLe).filter (fun x => rowKey x == k)))).filter
          (fun c => c.part_sku == r.part_sku && c.location_id == r.location_id)
        if ms.isEmpty then [(⟨r, "NaN", none, none⟩ : ARow)]
        else ms.map (fun c => ⟨r, c.demand_pattern, c.cv, c.adi⟩)) r
      = (fun _ => 1) r := by
    intro r hr
    have hms := length_filter_classification ((rows.mergeSort rowLe).map rowKey)
      (fun k => (rows.mergeSort rowLe).filter (fun x => rowKey x == k)) r
      (List.mem_map_of_mem rowKey hr)
    simp only [Function.comp_apply]
    rw [if_neg (ms_not_isEmpty rows r hr), List.length_map, hms]
  rw [List.map_congr_left h1, List.map_const', List.sum_replicate, smul_eq_mul,
    mul_one, List.length_mergeSort]

/-- C5: for every input dataset, the record-level output of
`classify_demand_patterns` has exactly as many rows as the input: the merge
of the classification fields onto the original rows matches each row with
exactly one classification row. -/
theorem C5_row_count (rows : List LRow) :
    (classify_demand_patterns rows).1.length = rows.length :=
  df_classified_length rows

/-- C6: for every input dataset, the classification table of
`classify_demand_patterns` has exactly one row per distinct
`(part_sku, location_id)` pair of the input. -/
theorem C6_group_count (rows : List LRow) :
    (classify_demand_patterns rows).2.length = ((rows.map rowKey).toFinset).card := by
  simp only [classify_demand_patterns]
  rw [List.length_map, ← List.card_toFinset]
  rw [List.toFinset_eq_of_perm _ _ ((List.mergeSort_perm rows rowLe).map rowKey)]

/-! ### Lemmas and the claim theorem for the report generator -/

/-- A concrete one-row dataset used by witnesses. -/
noncomputable def oneRow : LRow :=
  ⟨⟨"P1", 0, 1, fun _ => 0⟩, "LOC_001"⟩

/-- Every pattern of the classification table is one of the five fixed
labels. -/
lemma crow_pattern_mem (rows : List LRow) :
    ∀ c ∈ (classify_demand_patterns rows).2, c.demand_pattern ∈ PATTERN_ORDER := by
  intro c hc
  simp only [classify_demand_patterns] at hc
  rw [List.mem_map] at hc
  obtain ⟨k, -, rfl⟩ := hc
  exact classify_demand_pattern_mem _ _

/-- Every pattern of the record-level output is one of the five fixed
labels: the unmatched-merge branch (pattern "NaN") is never taken. -/
lemma arow_pattern_mem (rows : List LRow) :
    ∀ a ∈ (classify_demand_patterns rows).1, a.demand_pattern ∈ PATTERN_ORDER := by
  intro a ha
  simp only [classify_demand_patterns] at ha
  rw [List.mem_flatMap] at ha
  obtain ⟨r, hr, hmem⟩ := ha
  rw [if_neg (ms_not_isEmpty rows r hr), List.mem_map] at hmem
  obtain ⟨c, hc, rfl⟩ := hmem
  have hcdf := List.mem_of_mem_filter hc
  rw [List.mem_map] at hcdf
  obtain ⟨k, -, rfl⟩ := hcdf
  exact classify_demand_pattern_mem _ _

/-- A non-empty input yields a non-empty classification table. -/
lemma classification_df_ne_nil (rows : List LRow) (h : rows ≠ []) :
    (classify_demand_patterns rows).2 ≠ [] := by
  simp only [classify_demand_patterns]
  intro hc
  rw [List.map_eq_nil_iff, List.dedup_eq_nil, List.map_eq_nil_iff] at hc
  have hlen := @List.length_mergeSort _ rowLe rows
  rw [hc] at hlen
  exact h (List.length_eq_zero.mp hlen.symm)

/-- C8: for every input dataset that yields a report (a non-empty one),
the five category percentages sum to exactly 100 both in the group-level
distribution table and in the record-level distribution table, and every
one of the five categories appears in each table with its count (0 when
absent), never omitted. -/
theorem C8_report_percentages (rows : List LRow) (h : rows ≠ []) :
    (((generate_classification_report (classify_demand_patterns rows).2
        (classify_demand_patterns rows).1).group_lines.map
          (fun t => t.2.2)).sum = 100) ∧
    (((generate_classification_report (classify_demand_patterns rows).2
        (classify_demand_patterns rows).1).record_lines.map
          (fun t => t.2.2)).sum = 100) ∧
    (∀ p ∈ PATTERN_ORDER,
      (p, patternCount ((classify_demand_patterns rows).2.map
            (fun c => c.demand_pattern)) p,
        patternPct ((classify_demand_patterns rows).2.map
            (fun c => c.demand_pattern)) p)
        ∈ (generate_classification_report (classify_demand_patterns rows).2
            (classify_demand_patterns rows).1).group_lines ∧
      (p, patternCount ((classify_demand_patterns rows).1.map
            (fun a => a.demand_pattern)) p,
        patternPct ((classify_demand_patterns rows).1.map
            (fun a => a.demand_pattern)) p)
        ∈ (generate_classification_report (classify_demand_patterns rows).2
            (classify_demand_patterns rows).1).record_lines) := by
  have hgmem : ∀ x ∈ (classify_demand_patterns rows).2.map
      (fun c => c.demand_pattern), x ∈ PATTERN_ORDER := by
    intro x hx
    rw [List.mem_map] at hx
    obtain ⟨c, hc, rfl⟩ := hx
    exact crow_pattern_mem rows c hc
  have hrmem : ∀ x ∈ (classify_demand_patterns rows).1.map
      (fun a => a.demand_pattern), x ∈ PATTERN_ORDER := by
    intro x hx
    rw [List.mem_map] at hx
    obtain ⟨a, ha, rfl⟩ := hx
    exact arow_pattern_mem rows a ha
  have hglen : ((classify_demand_patterns rows).2.map
      (fun c => c.demand_pattern)).length ≠ 0 := by
    rw [List.length_map]
    intro hz
    exact classification_df_ne_nil rows h (List.length_eq_zero.mp hz)
  have hrlen : ((classify_demand_patterns rows).1.map
      (fun a => a.demand_pattern)).length ≠ 0 := by
    rw [List.length_map, df_classified_length rows]
    intro hz
    exact h (List.length_eq_zero.mp hz)
  refine ⟨?_, ?_, ?_⟩
  · rw [generate_classification_report, List.map_map]
    exact sum_patternPct _ hgmem hglen
  · rw [generate_classification_report, List.map_map]
    exact sum_patternPct _ hrmem hrlen
  · intro p hp
    exact ⟨List.mem_map_of_mem _ hp, List.mem_map_of_mem _ hp⟩

/-- C8 (witness): `C8_report_percentages` at a concrete one-row input. -/
theorem C8_report_percentages_witness :
    (((generate_classification_report
        (classify_demand_patterns [oneRow]).2
        (classify_demand_patterns [oneRow]).1).group_lines.map
          (fun t => t.2.2)).sum = 100) ∧
    (((generate_classification_report
        (classify_demand_patterns [oneRow]).2
        (classify_demand_patterns [oneRow]).1).record_lines.map
          (fun t => t.2.2)).sum = 100) ∧
    (∀ p ∈ PATTERN_ORDER,
      (p, patternCount ((classify_demand_patterns [oneRow]).2.map
            (fun c => c.demand_pattern)) p,
        patternPct ((classify_demand_patterns [oneRow]).2.map
            (fun c => c.demand_pattern)) p)
        ∈ (generate_classification_report (classify_demand_patterns [oneRow]).2
            (classify_demand_patterns [oneRow]).1).group_lines ∧
      (p, patternCount ((classify_demand_patterns [oneRow]).1.map
            (fun a => a.demand_pattern)) p,
        patternPct ((classify_demand_patterns [oneRow]).1.map
            (fun a => a.demand_pattern)) p)
        ∈ (generate_classification_report (classify_demand_patterns [oneRow]).2
            (classify_demand_patterns [oneRow]).1).record_lines) :=
  C8_report_percentages [oneRow] (List.cons_ne_nil oneRow [])

/-! ### Claim theorems for the location reconciler -/

/-- A concrete ambiguous row: both indicator columns `location_id_LOC_002`
and `location_id_LOC_003` are set to 1. -/
def ambiguousRow : RawRow :=
  ⟨"P1", 0, 0, fun c =>
    if c = "location_id_LOC_002" ∨ c = "location_id_LOC_003" then 1 else 0⟩

/-- C4 (counterexample): a row with two indicator columns set to 1 is
assigned the location of the first set indicator (`LOC_002`), not the
default `LOC_001`: only the zero-indicator case falls back to the
default. -/
theorem C4_counterexample :
    reconstruct_location ["location_id_LOC_002", "location_id_LOC_003"] ambiguousRow
        = "LOC_002" ∧
    reconstruct_location ["location_id_LOC_002", "location_id_LOC_003"] ambiguousRow
        ≠ "LOC_001" := by
  constructor
  · decide
  · decide

/-- C4 (amended): a row with zero indicator columns set to 1 is assigned
the default `LOC_001`; a row with one or more indicators set to 1 (in
particular an ambiguous row with several) is deterministically assigned
the location code of the first set indicator column. -/
theorem C4_ambiguous_rows (cols l₁ l₂ : List String) (c : String) (r : RawRow) :
    ((∀ c' ∈ cols, r.extra c' ≠ 1) → reconstruct_location cols r = "LOC_001") ∧
    (cols = l₁ ++ c :: l₂ → (∀ c' ∈ l₁, r.extra c' ≠ 1) → r.extra c = 1 →
      reconstruct_location cols r = pyReplaceEmpty c "location_id_") := by
  constructor
  · intro h
    rw [reconstruct_location, List.find?_eq_none.mpr]
    intro x hx
    simpa using h x hx
  · intro hcols h1 hc
    subst hcols
    rw [reconstruct_location, List.find?_append, List.find?_eq_none.mpr, Option.none_or,
      List.find?_cons_of_pos _ (by simpa using hc)]
    intro x hx
    simpa using h1 x hx

/-- C4 (witness): both clauses of `C4_ambiguous_rows` at concrete rows:
an all-zero row gets `LOC_001`, and `ambiguousRow` (two indicators set)
gets the stripped name of the first set column. -/
theorem C4_ambiguous_rows_witness :
    reconstruct_location ["location_id_LOC_002"] ⟨"P1", 0, 0, fun _ => 0⟩ = "LOC_001" ∧
    reconstruct_location ["location_id_LOC_002", "location_id_LOC_003"] ambiguousRow
      = pyReplaceEmpty "location_id_LOC_002" "location_id_" := by
  refine ⟨(C4_ambiguous_rows ["location_id_LOC_002"] [] [] "x"
      ⟨"P1", 0, 0, fun _ => 0⟩).1 ?_,
    (C4_ambiguous_rows ["location_id_LOC_002", "location_id_LOC_003"] []
      ["location_id_LOC_003"] "location_id_LOC_002" ambiguousRow).2 rfl ?_ ?_⟩
  · intro c' _
    norm_num
  · intro c' h
    exact absurd h (List.not_mem_nil c')
  · decide

/-- C9: the reconciler only adds the `location_id` column: every
pre-existing field of every row (part identifier, date, quantity, every
extra/one-hot column) is unchanged, the row count is unchanged, and the
added column holds exactly the reconstructed location of that row. -/
theorem C9_reconciler_frame (cols : List String) (rows : List RawRow) :
    (add_location_id cols rows).map LRow.toRawRow = rows ∧
    (add_location_id cols rows).length = rows.length ∧
    (∀ col : String, (add_location_id cols rows).map (fun lr => lr.toRawRow.extra col)
        = rows.map (fun r => r.extra col)) ∧
    (∀ lr ∈ add_location_id cols rows,
        lr.location_id = reconstruct_location cols lr.toRawRow) := by
  have hmap : (add_location_id cols rows).map LRow.toRawRow = rows := by
    rw [add_location_id, List.map_map]
    exact List.map_id rows
  refine ⟨hmap, ?_, ?_, ?_⟩
  · rw [add_location_id, List.length_map]
  · intro col
    rw [add_location_id, List.map_map]
    rfl
  · intro lr hlr
    rw [add_location_id, List.mem_map] at hlr
    obtain ⟨r, -, rfl⟩ := hlr
    rfl

/-- C9 (witness): `C9_reconciler_frame` at a concrete one-row dataset. -/
theorem C9_reconciler_frame_witness :
    (add_location_id ["location_id_LOC_002"] [ambiguousRow]).map LRow.toRawRow
        = [ambiguousRow] ∧
    (add_location_id ["location_id_LOC_002"] [ambiguousRow]).length = 1 ∧
    (∀ col : String,
        (add_location_id ["location_id_LOC_002"] [ambiguousRow]).map
          (fun lr => lr.toRawRow.extra col)
        = [ambiguousRow].map (fun r => r.extra col)) ∧
    (∀ lr ∈ add_location_id ["location_id_LOC_002"] [ambiguousRow],
        lr.location_id = reconstruct_location ["location_id_LOC_002"] lr.toRawRow) :=
  C9_reconciler_frame ["location_id_LOC_002"] [ambiguousRow]

end DemandClassification
